import Mathlib

/-!
Verification of the credential-management service (`main.py`) and its pepper
provisioning script (`generate_pepper.py`).

The Argon2id digest computation performed by the `argon2` library is modelled
as an abstract function `H : Argon2Params → String → String → String`
(parameters, salt, input value ↦ digest); every theorem quantifies over it.
The self-describing PHC hash string emitted by `PasswordHasher.hash` is
modelled structurally: a well-formed string carries its parameters, salt and
digest (`HashStr.valid`), any other string is `HashStr.malformed`.  The SQLite
`users` table is modelled as the list of its rows in insertion order.
-/

namespace Auth

/-- Tunable parameters of the `PasswordHasher` (`main.py` lines 23-29). -/
structure Argon2Params where
  time_cost : Nat
  memory_cost : Nat
  parallelism : Nat
  hash_len : Nat
  salt_len : Nat
deriving DecidableEq, Repr

/-- The process-wide hasher configuration: `PasswordHasher(time_cost=3,
memory_cost=64_000, parallelism=4, hash_len=32, salt_len=16)`. -/
def ph : Argon2Params := ⟨3, 64000, 4, 32, 16⟩

/-- Abstract model of the Argon2id digest computation: parameters, salt and
input value determine the digest deterministically. -/
abbrev Argon2Fn : Type := Argon2Params → String → String → String

/-- Content of a well-formed self-describing PHC hash string: algorithm
parameters, per-call salt, and derived digest. -/
structure HashRecord where
  params : Argon2Params
  salt : String
  digest : String
deriving DecidableEq, Repr

/-- A Python string in hash-string position: either a well-formed PHC string
(structurally represented) or any other (malformed) string. -/
inductive HashStr where
  | valid (rec : HashRecord)
  | malformed (s : String)
deriving DecidableEq, Repr

/-- Exceptions of the `argon2` library relevant to `main.py`:
`VerifyMismatchError` (caught in `verify_password`) and `InvalidHashError`
(raised on a malformed or unrecognized hash string, not caught). -/
inductive Argon2Error where
  | verifyMismatch
  | invalidHash
deriving DecidableEq, Repr

/-- `ph.hash(value)`: draws a fresh random salt (passed here explicitly as
`salt`) and produces a well-formed hash string embedding the configured
parameters, the salt, and the digest of `value`. -/
def ph_hash (H : Argon2Fn) (salt value : String) : HashStr :=
  .valid ⟨ph, salt, H ph salt value⟩

/-- `ph.verify(stored, value)`: parses the stored hash string (raising
`InvalidHashError` if malformed), recomputes the digest from the embedded
parameters and salt, and raises `VerifyMismatchError` unless it matches. -/
def ph_verify (H : Argon2Fn) (stored : HashStr) (value : String) :
    Except Argon2Error Unit :=
  match stored with
  | .malformed _ => .error .invalidHash
  | .valid rec =>
      if H rec.params rec.salt value = rec.digest then .ok ()
      else .error .verifyMismatch

/-- `hash_password` (`main.py` lines 85-87): concatenates the plaintext
password with the process-wide pepper and hashes the result. -/
def hash_password (H : Argon2Fn) (pepper salt plain_password : String) :
    HashStr :=
  ph_hash H salt (plain_password ++ pepper)

/-- `verify_password` (`main.py` lines 90-96): recomputes with the same
pepper concatenation; `VerifyMismatchError` is caught and returned as
`False`, any other exception propagates. -/
def verify_password (H : Argon2Fn) (pepper plain_password : String)
    (stored_hash : HashStr) : Except Argon2Error Bool :=
  match ph_verify H stored_hash (plain_password ++ pepper) with
  | .ok () => .ok true
  | .error .verifyMismatch => .ok false
  | .error e => .error e

/-- Rows of the `users` table in insertion order: (username, password_hash).
The surrogate `id` key plays no role in any operation and is omitted. -/
abbrev Store : Type := List (String × HashStr)

/-- `sqlite3.IntegrityError`, raised when the UNIQUE constraint on
`username` rejects an insert. -/
inductive SqlError where
  | integrityError
deriving DecidableEq, Repr

/-- `init_db` (`main.py` lines 64-77): `CREATE TABLE IF NOT EXISTS` is
idempotent — an existing table is kept, otherwise the table starts empty. -/
def init_db (existing : Option Store) : Store :=
  existing.getD []

/-- `get_user_hash` (`main.py` lines 99-108): `SELECT password_hash FROM
users WHERE username = ?` with `fetchone` returns the first matching row. -/
def get_user_hash (db : Store) (username : String) : Option HashStr :=
  (db.find? fun r => r.1 == username).map (fun r => r.2)

/-- `create_user` (`main.py` lines 111-123): the INSERT fails atomically
with `IntegrityError` when the username already exists (the transaction is
never committed), otherwise the row is appended. -/
def create_user (db : Store) (username : String) (password_hash : HashStr) :
    Except SqlError Store :=
  if db.any fun r => r.1 == username then .error .integrityError
  else .ok (db ++ [(username, password_hash)])

/-- Caller-visible outcome of the `/register` endpoint. -/
inductive RegOutcome where
  | invalidInput
  | duplicateUser
  | registered
deriving DecidableEq, Repr

/-- Caller-visible outcome of the `/login` endpoint. -/
inductive LoginOutcome where
  | userNotFound
  | invalidCredentials
  | verified
deriving DecidableEq, Repr

/-- `register` (`main.py` lines 144-161): passwords of length ≤ 7 are
rejected with 400 before hashing; `IntegrityError` from the store is mapped
to the duplicate-user outcome; otherwise the user is stored.  The fresh
random salt drawn inside `ph.hash` is passed explicitly as `salt`. -/
def register (H : Argon2Fn) (pepper salt : String) (db : Store)
    (username password : String) : RegOutcome × Store :=
  if password.length ≤ 7 then (.invalidInput, db)
  else
    match create_user db username (hash_password H pepper salt password) with
    | .error .integrityError => (.duplicateUser, db)
    | .ok db2 => (.registered, db2)

/-- `login` (`main.py` lines 164-179): `if not stored_hash` is Python
truthiness, so both a missing row and an empty stored string give 404; a
failed verification gives 401; an uncaught `InvalidHashError` propagates. -/
def login (H : Argon2Fn) (pepper : String) (db : Store)
    (username password : String) : Except Argon2Error LoginOutcome :=
  match get_user_hash db username with
  | none => .ok .userNotFound
  | some stored_hash =>
      if stored_hash = HashStr.malformed "" then .ok .userNotFound
      else
        match verify_password H pepper password stored_hash with
        | .error e => .error e
        | .ok false => .ok .invalidCredentials
        | .ok true => .ok .verified

/-- `RuntimeError("APP_PEPPER no está configurado")` at module load. -/
inductive ConfigError where
  | missingPepper
deriving DecidableEq, Repr

/-- `main.py` lines 17-20: `PEPPER = os.getenv("APP_PEPPER", "")` followed by
`if not PEPPER: raise RuntimeError(...)`.  This runs at module import, before
the FastAPI app exists, hence before any request can be served. -/
def load_pepper (env : Option String) : Except ConfigError String :=
  let pepper := env.getD ""
  if pepper = "" then .error .missingPepper else .ok pepper

/-- A concrete digest function used to instantiate the abstract Argon2 model
in witnesses: the digest records the hashed value. -/
def H0 : Argon2Fn := fun _ _ value => "d:" ++ value

/-- A concrete stored hash for the witness user. -/
def h_alice : HashStr := hash_password H0 "pep" "salt1" "secretpw1"

/-- A concrete one-user store for witnesses. -/
def db0 : Store := [("alice", h_alice)]

end Auth

namespace Pepper

/-- Python `str.startswith` on the underlying character lists. -/
def listStartsWith : List Char → List Char → Bool
  | _, [] => true
  | [], _ :: _ => false
  | c :: cs, d :: ds => c == d && listStartsWith cs ds

/-- Python `line.startswith(pre)`. -/
def pyStartsWith (s pre : String) : Bool :=
  listStartsWith s.data pre.data

/-- Python `str.strip()`: remove leading and trailing whitespace. -/
def pyStrip (s : String) : String :=
  ⟨((s.data.dropWhile Char.isWhitespace).reverse.dropWhile
      Char.isWhitespace).reverse⟩

/-- Splitting on `"\n"`, accumulating the current line in reverse. -/
def splitLinesAux : List Char → List Char → List String
  | [], acc => [⟨acc.reverse⟩]
  | c :: cs, acc =>
      if c = '\n' then (⟨acc.reverse⟩ : String) :: splitLinesAux cs []
      else splitLinesAux cs (c :: acc)

/-- Python `s.split("\n")`. -/
def pySplitLines (s : String) : List String :=
  splitLinesAux s.data []

/-- `generate_pepper.py` line 47: `existing_content.strip().split("\n") if
existing_content.strip() else []`. -/
def contentLines (existing_content : String) : List String :=
  if pyStrip existing_content = "" then []
  else pySplitLines (pyStrip existing_content)

/-- `generate_pepper.py` lines 50-53: drop every line starting with
`APP_PEPPER=`, then append the new entry. -/
def updateLines (pepper : String) (lines : List String) : List String :=
  (lines.filter fun line => !pyStartsWith line "APP_PEPPER=")
    ++ ["APP_PEPPER=" ++ pepper]

/-- Python `"\n".join(lines)`. -/
def joinLines : List String → String
  | [] => ""
  | [l] => l
  | l :: ls => l ++ "\n" ++ joinLines ls

/-- `generate_pepper.py` line 57: `"\n".join(lines) + "\n"`. -/
def renderLines (lines : List String) : String :=
  joinLines lines ++ "\n"

/-- File-system operations performed by `create_env_file`, in order. -/
inductive FsOp where
  | readFile (path : String)
  | writeFile (path content : String)
  | renameFile (src dst : String)
deriving DecidableEq, Repr

/-- Whether an operation is a rename. -/
def FsOp.isRenameFile : FsOp → Bool
  | .renameFile _ _ => true
  | _ => false

/-- Whether an operation is a file write. -/
def FsOp.isWriteFile : FsOp → Bool
  | .writeFile _ _ => true
  | _ => false

/-- The I/O trace of `create_env_file(pepper, env_path)` (`generate_pepper.py`
lines 26-63) when the target file holds `existing` (`none` = absent): an
optional read of the existing content, then a single direct
`open(env_file, "w")` write of the full new content to the target path. -/
def create_env_file_trace (pepper env_path : String) (existing : Option String) :
    List FsOp :=
  let new_content := renderLines (updateLines pepper (contentLines (existing.getD "")))
  match existing with
  | some _ => [.readFile env_path, .writeFile env_path new_content]
  | none => [.writeFile env_path new_content]

/-- File-system state plus injected failure outcomes for the two writers:
whether the read in `create_env_file`, its write, or the write in
`create_env_example` raises. -/
structure FsWorld where
  env_file : Option String
  example_file : Option String
  read_fails : Bool
  write_fails : Bool
  example_write_fails : Bool
deriving DecidableEq, Repr

/-- A raised Python exception (anything caught by `except Exception`). -/
inductive PyError where
  | ioError (msg : String)
deriving DecidableEq, Repr

/-- The `try` block of `create_env_file`: read the existing file if present,
compute the new content, write it; any step may raise. -/
def create_env_file_body (pepper : String) (w : FsWorld) :
    Except PyError (Bool × FsWorld) :=
  match w.env_file with
  | some content =>
      if w.read_fails then .error (.ioError "read")
      else if w.write_fails then .error (.ioError "write")
      else .ok (true, { w with
        env_file := some (renderLines (updateLines pepper (contentLines content))) })
  | none =>
      if w.write_fails then .error (.ioError "write")
      else .ok (true, { w with
        env_file := some (renderLines (updateLines pepper (contentLines ""))) })

/-- `create_env_file` (`generate_pepper.py` lines 26-63): the whole body is
wrapped in `try/except Exception`, which prints and returns `False`. -/
def create_env_file (pepper : String) (w : FsWorld) : Bool × FsWorld :=
  match create_env_file_body pepper w with
  | .ok r => r
  | .error _ => (false, w)

/-- The literal `.env.example` template written by `create_env_example`. -/
def env_example_content : String :=
  "# Variables de entorno para la aplicación de autenticación\n\n# APP_PEPPER: Clave secreta utilizada como \"pepper\" en el hash de contraseñas\n# Esta clave se concatena a la contraseña del usuario antes de aplicar Argon2id\n# Generar una clave segura con: python generate_pepper.py\n# IMPORTANTE: Nunca compartir esta clave o incluirla en repositorios públicos\nAPP_PEPPER=tu_clave_super_secreta_de_32_caracteres_aqui\n"

/-- The `try` block of `create_env_example`: write the template. -/
def create_env_example_body (w : FsWorld) : Except PyError (Bool × FsWorld) :=
  if w.example_write_fails then .error (.ioError "write")
  else .ok (true, { w with example_file := some env_example_content })

/-- `create_env_example` (`generate_pepper.py` lines 66-93): wrapped in
`try/except Exception`, which prints and returns `False`. -/
def create_env_example (w : FsWorld) : Bool × FsWorld :=
  match create_env_example_body w with
  | .ok r => r
  | .error _ => (false, w)

end Pepper

/-- C1: round-trip of hashing and verification — for every digest function,
pepper, fresh salt and password `p`, `verify(p, hash(p))` returns `True`:
both sides concatenate the password with the same pepper, and verification
recomputes the digest from the salt and parameters embedded in the hash
string. -/
theorem Auth.verify_hash_password_roundtrip (H : Argon2Fn)
    (pepper salt p : String) :
    verify_password H pepper p (hash_password H pepper salt p) = .ok true := by
  simp [verify_password, hash_password, ph_hash, ph_verify]

/-- C5: verification separates mismatch from structural failure — on a
well-formed hash string the result is a plain boolean (`ok false` on
mismatch, never an exception), while a malformed hash string raises
`InvalidHashError`, a distinct error kind that is never the `ok false`
mismatch outcome. -/
theorem Auth.verify_password_mismatch_vs_malformed (H : Argon2Fn)
    (pepper p : String) (rec : HashRecord) (s : String) :
    verify_password H pepper p (.valid rec)
      = .ok (decide (H rec.params rec.salt (p ++ pepper) = rec.digest))
    ∧ verify_password H pepper p (.malformed s) = .error .invalidHash
    ∧ verify_password H pepper p (.malformed s) ≠ .ok false := by
  refine ⟨?_, by simp [verify_password, ph_verify], by simp [verify_password, ph_verify]⟩
  by_cases h : H rec.params rec.salt (p ++ pepper) = rec.digest <;>
    simp [verify_password, ph_verify, h]

/-- C6: a missing or empty `APP_PEPPER` value makes the module-level pepper
load fail with the fatal configuration error (raised at import, before any
request can be served); a non-empty value loads successfully. -/
theorem Auth.load_pepper_missing_is_fatal (env : Option String) :
    ((env = none ∨ env = some "") → load_pepper env = .error .missingPepper)
    ∧ (∀ s, env = some s → s ≠ "" → load_pepper env = .ok s) := by
  constructor
  · rintro (rfl | rfl) <;> simp [load_pepper]
  · rintro s rfl hs
    simp [load_pepper, hs]

/-- Witness for C6: absent pepper is fatal, a concrete non-empty pepper
loads. -/
theorem Auth.load_pepper_missing_is_fatal_witness :
    load_pepper none = .error .missingPepper
    ∧ load_pepper (some "p3pp3r") = .ok "p3pp3r" :=
  ⟨(Auth.load_pepper_missing_is_fatal none).1 (Or.inl rfl),
   (Auth.load_pepper_missing_is_fatal (some "p3pp3r")).2 "p3pp3r" rfl (by decide)⟩

/-- C9: salt randomization — two hashes of the same password drawn with
distinct fresh salts are distinct hash strings, and both verify the
password. -/
theorem Auth.hash_password_salt_randomized (H : Argon2Fn)
    (pepper p s1 s2 : String) (hne : s1 ≠ s2) :
    hash_password H pepper s1 p ≠ hash_password H pepper s2 p
    ∧ verify_password H pepper p (hash_password H pepper s1 p) = .ok true
    ∧ verify_password H pepper p (hash_password H pepper s2 p) = .ok true := by
  refine ⟨?_, ?_, ?_⟩
  · simp [hash_password, ph_hash, hne]
  · simp [verify_password, hash_password, ph_hash, ph_verify]
  · simp [verify_password, hash_password, ph_hash, ph_verify]

/-- Witness for C9 at a concrete digest function, password and salts. -/
theorem Auth.hash_password_salt_randomized_witness :
    hash_password H0 "pep" "saltA" "pw" ≠ hash_password H0 "pep" "saltB" "pw"
    ∧ verify_password H0 "pep" "pw" (hash_password H0 "pep" "saltA" "pw") = .ok true
    ∧ verify_password H0 "pep" "pw" (hash_password H0 "pep" "saltB" "pw") = .ok true :=
  Auth.hash_password_salt_randomized H0 "pep" "pw" "saltA" "saltB" (by decide)

/-- C3: login outcome trichotomy — an absent username yields `UserNotFound`;
for a present username, a verification returning `False` yields
`InvalidCredentials` and a successful verification yields `Verified`. -/
theorem Auth.login_outcome_trichotomy (H : Argon2Fn) (pepper : String)
    (db : Store) (u p : String) :
    (get_user_hash db u = none → login H pepper db u p = .ok .userNotFound)
    ∧ (∀ h, get_user_hash db u = some h →
        (verify_password H pepper p h = .ok false →
          login H pepper db u p = .ok .invalidCredentials)
        ∧ (verify_password H pepper p h = .ok true →
          login H pepper db u p = .ok .verified)) := by
  constructor
  · intro hnone
    simp [login, hnone]
  · intro h hsome
    have hnotempty : verify_password H pepper p h ≠ .error Argon2Error.invalidHash →
        h ≠ HashStr.malformed "" := by
      intro hv he
      subst he
      exact hv (by simp [verify_password, ph_verify])
    constructor
    · intro hv
      simp [login, hsome, hnotempty (by simp [hv]), hv]
    · intro hv
      simp [login, hsome, hnotempty (by simp [hv]), hv]

/-- Witness for C3 on a concrete store: unknown user, wrong password, and
correct password cases. -/
theorem Auth.login_outcome_trichotomy_witness :
    login H0 "pep" db0 "bob" "whatever1" = .ok .userNotFound
    ∧ login H0 "pep" db0 "alice" "wrongpass" = .ok .invalidCredentials
    ∧ login H0 "pep" db0 "alice" "secretpw1" = .ok .verified :=
  ⟨(Auth.login_outcome_trichotomy H0 "pep" db0 "bob" "whatever1").1 rfl,
   ((Auth.login_outcome_trichotomy H0 "pep" db0 "alice" "wrongpass").2
      h_alice rfl).1 rfl,
   ((Auth.login_outcome_trichotomy H0 "pep" db0 "alice" "secretpw1").2
      h_alice rfl).2 rfl⟩

/-- C2: duplicate registration is rejected atomically — when the username is
already stored and the password passes validation, `register` returns the
duplicate-user outcome, the store is unchanged, and the originally stored
hash is still found. -/
theorem Auth.register_duplicate_rejected (H : Argon2Fn) (pepper salt : String)
    (db : Store) (u p : String) (h0 : HashStr)
    (hfound : get_user_hash db u = some h0) (hlen : 7 < p.length) :
    register H pepper salt db u p = (.duplicateUser, db)
    ∧ get_user_hash (register H pepper salt db u p).2 u = some h0 := by
  have hany : (db.any fun r => r.1 == u) = true := by
    unfold get_user_hash at hfound
    obtain ⟨r, hr, _⟩ := Option.map_eq_some'.mp hfound
    have hpr := List.find?_some hr
    exact List.any_eq_true.mpr ⟨r, List.mem_of_find?_eq_some hr, hpr⟩
  have hreg : register H pepper salt db u p = (.duplicateUser, db) := by
    unfold register create_user
    rw [if_neg (Nat.not_le.mpr hlen), if_pos hany]
  exact ⟨hreg, by rw [hreg]; exact hfound⟩

/-- Witness for C2: re-registering the stored user with a valid password is
rejected and the stored hash survives. -/
theorem Auth.register_duplicate_rejected_witness :
    register H0 "pep" "salt2" db0 "alice" "other12345" = (.duplicateUser, db0)
    ∧ get_user_hash (register H0 "pep" "salt2" db0 "alice" "other12345").2 "alice"
        = some h_alice :=
  Auth.register_duplicate_rejected H0 "pep" "salt2" db0 "alice" "other12345"
    h_alice rfl (by decide)

/-- C4: password-length precondition — `register` returns `InvalidInput`
exactly when the password has 7 or fewer characters, and in that case the
store is untouched (the length check precedes hashing and insertion). -/
theorem Auth.register_password_length_validation (H : Argon2Fn)
    (pepper salt : String) (db : Store) (u p : String) :
    ((register H pepper salt db u p).1 = .invalidInput ↔ p.length ≤ 7)
    ∧ (p.length ≤ 7 → register H pepper salt db u p = (.invalidInput, db)) := by
  by_cases hl : p.length ≤ 7
  · simp [register, hl]
  · refine ⟨?_, fun h => absurd h hl⟩
    simp only [register, if_neg hl]
    constructor
    · intro hc
      cases hcu : create_user db u (hash_password H pepper salt p) with
      | error e =>
          cases e
          rw [hcu] at hc
          exact absurd hc (by simp)
      | ok db2 =>
          rw [hcu] at hc
          exact absurd hc (by simp)
    · intro hc
      exact absurd hc hl

/-- Witness for C4: a 7-character password is rejected with the store
untouched; an 8-character password passes validation. -/
theorem Auth.register_password_length_validation_witness :
    (register H0 "pep" "s" ([] : Store) "u" "1234567").1 = .invalidInput
    ∧ register H0 "pep" "s" ([] : Store) "u" "1234567" = (.invalidInput, [])
    ∧ (register H0 "pep" "s" ([] : Store) "u" "12345678").1 ≠ .invalidInput :=
  ⟨(Auth.register_password_length_validation H0 "pep" "s" [] "u" "1234567").1.mpr
      (by decide),
   (Auth.register_password_length_validation H0 "pep" "s" [] "u" "1234567").2
      (by decide),
   fun hc => absurd
     ((Auth.register_password_length_validation H0 "pep" "s" [] "u" "12345678").1.mp hc)
     (by decide)⟩

/-- Counterexample for C7: `register` performs no non-emptiness check on the
username — registering the empty username with a valid password succeeds and
stores a record whose username is the empty string. -/
theorem Auth.register_empty_username_cex :
    (register H0 "pep" "s" ([] : Store) "" "password123").1 = .registered
    ∧ (register H0 "pep" "s" ([] : Store) "" "password123").2
        = [("", HashStr.valid ⟨ph, "s", "d:" ++ ("password123" ++ "pep")⟩)] := by
  constructor <;> rfl

/-- C7 (amended): username uniqueness — `register` preserves distinctness of
the stored usernames (the only mutating operation of the core; the UNIQUE
constraint rejects duplicate inserts). -/
theorem Auth.register_preserves_username_uniqueness (H : Argon2Fn)
    (pepper salt : String) (db : Store) (u p : String)
    (hnd : (db.map Prod.fst).Nodup) :
    (((register H pepper salt db u p).2).map Prod.fst).Nodup := by
  unfold register
  by_cases hl : p.length ≤ 7
  · simpa [hl] using hnd
  · rw [if_neg hl]
    cases hcu : create_user db u (hash_password H pepper salt p) with
    | error e => cases e; simpa using hnd
    | ok db2 =>
        unfold create_user at hcu
        by_cases hany : (db.any fun r => r.1 == u) = true
        · rw [if_pos hany] at hcu
          exact absurd hcu (by simp)
        · rw [if_neg hany] at hcu
          have hdb2 : db2 = db ++ [(u, hash_password H pepper salt p)] :=
            (Except.ok.injEq _ _).mp hcu.symm
          subst hdb2
          simp only [List.map_append, List.map_cons, List.map_nil]
          rw [List.nodup_append]
          refine ⟨hnd, List.nodup_singleton u, ?_⟩
          intro a ha hb
          rw [List.mem_singleton] at hb
          obtain ⟨r, hr, hru⟩ := List.mem_map.mp ha
          rw [List.any_eq_true] at hany
          exact hany ⟨r, hr, by simp [hru, hb]⟩

/-- Witness for C7 (amended): inserting a fresh user into the concrete store
keeps usernames distinct. -/
theorem Auth.register_preserves_username_uniqueness_witness :
    (((register H0 "pep" "t" db0 "carol" "password123").2).map Prod.fst).Nodup :=
  Auth.register_preserves_username_uniqueness H0 "pep" "t" db0 "carol"
    "password123" (by decide)

/-- A list starts with itself followed by anything. -/
theorem Pepper.listStartsWith_append (l t : List Char) :
    listStartsWith (l ++ t) l = true := by
  induction l with
  | nil => simp [listStartsWith]
  | cons c cs ih => simp [listStartsWith, ih]

/-- `pre ++ x` starts with `pre`. -/
theorem Pepper.pyStartsWith_append (pre x : String) :
    pyStartsWith (pre ++ x) pre = true := by
  unfold pyStartsWith
  rw [String.data_append]
  exact Pepper.listStartsWith_append _ _

/-- Filtering by `p` after keeping only the lines failing `p` leaves
nothing. -/
theorem Pepper.filter_not_self (p : String → Bool) (l : List String) :
    ((l.filter fun a => !p a).filter p) = [] := by
  induction l with
  | nil => rfl
  | cons a l ih => cases hpa : p a <;> simp [List.filter_cons, hpa, ih]

/-- Keeping only the lines failing `p` is idempotent. -/
theorem Pepper.filter_not_idem (p : String → Bool) (l : List String) :
    ((l.filter fun a => !p a).filter fun a => !p a) = l.filter fun a => !p a := by
  induction l with
  | nil => rfl
  | cons a l ih => cases hpa : p a <;> simp [List.filter_cons, hpa, ih]

/-- Counterexample for C8: on a concrete prior file content, the I/O trace of
`create_env_file` is a read followed by one direct write of the full new
content to the target path itself — it contains no rename (hence no
temp-file-and-atomic-rename step, contrary to the claim). -/
theorem Pepper.create_env_file_no_rename_cex :
    create_env_file_trace "S3CR3T" ".env" (some "DB_URL=x\nAPP_PEPPER=old")
      = [FsOp.readFile ".env", FsOp.writeFile ".env" "DB_URL=x\nAPP_PEPPER=S3CR3T\n"]
    ∧ ((create_env_file_trace "S3CR3T" ".env" (some "DB_URL=x\nAPP_PEPPER=old")).all
        fun op => !op.isRenameFile) = true := by
  constructor <;> rfl

/-- C8 (amended): `persist` writes the file back in full — the new content is
all prior non-pepper lines with every prior `APP_PEPPER` entry removed and
exactly one new `APP_PEPPER=secret` entry appended, and re-provisioning is
idempotent — but the write is a single direct overwrite of the target path,
with no temp file or rename in the trace. -/
theorem Pepper.create_env_file_full_rewrite (pepper p2 env_path : String)
    (existing : Option String) (lines : List String) :
    ((create_env_file_trace pepper env_path existing).all
        fun op => !op.isRenameFile) = true
    ∧ (create_env_file_trace pepper env_path existing).filter FsOp.isWriteFile
        = [FsOp.writeFile env_path
            (renderLines (updateLines pepper (contentLines (existing.getD ""))))]
    ∧ (updateLines pepper lines).filter (fun l => pyStartsWith l "APP_PEPPER=")
        = ["APP_PEPPER=" ++ pepper]
    ∧ (updateLines pepper lines).filter (fun l => !pyStartsWith l "APP_PEPPER=")
        = lines.filter (fun l => !pyStartsWith l "APP_PEPPER=")
    ∧ updateLines p2 (updateLines pepper lines) = updateLines p2 lines := by
  refine ⟨?_, ?_, ?_, ?_, ?_⟩
  · cases existing <;>
      simp [create_env_file_trace, FsOp.isRenameFile]
  · cases existing <;>
      simp [create_env_file_trace, FsOp.isWriteFile, List.filter_cons]
  · unfold updateLines
    rw [List.filter_append,
      Pepper.filter_not_self (fun l => pyStartsWith l "APP_PEPPER=")]
    simp [List.filter_cons, Pepper.pyStartsWith_append]
  · unfold updateLines
    rw [List.filter_append,
      Pepper.filter_not_idem (fun l => pyStartsWith l "APP_PEPPER=")]
    simp [List.filter_cons, Pepper.pyStartsWith_append]
  · conv_lhs => unfold updateLines
    rw [List.filter_append,
      Pepper.filter_not_idem (fun l => pyStartsWith l "APP_PEPPER=")]
    simp only [List.filter_cons, Pepper.pyStartsWith_append, Bool.not_true,
      Bool.false_eq_true, if_false, List.filter_nil, List.append_nil]
    rfl

/-- C10: the provisioning file writers never propagate exceptions — whatever
the I/O outcome, `create_env_file` and `create_env_example` return a plain
boolean: any exception raised in the body is caught and turned into `False`
(leaving the caller-observable result a boolean), and a completed body
returns `True`. -/
theorem Pepper.writers_return_bool_never_raise (pepper : String) (w : FsWorld) :
    (∀ e, create_env_file_body pepper w = .error e →
      create_env_file pepper w = (false, w))
    ∧ (∀ r, create_env_file_body pepper w = .ok r →
      create_env_file pepper w = r ∧ r.1 = true)
    ∧ (∀ e, create_env_example_body w = .error e →
      create_env_example w = (false, w))
    ∧ (∀ r, create_env_example_body w = .ok r →
      create_env_example w = r ∧ r.1 = true) := by
  refine ⟨?_, ?_, ?_, ?_⟩
  · intro e he
    simp [create_env_file, he]
  · intro r hr
    refine ⟨by simp [create_env_file, hr], ?_⟩
    cases hf : w.env_file <;> cases hrf : w.read_fails <;>
      cases hwf : w.write_fails <;>
        simp [create_env_file_body, hf, hrf, hwf] at hr <;> rw [← hr]
  · intro e he
    simp [create_env_example, he]
  · intro r hr
    refine ⟨by simp [create_env_example, hr], ?_⟩
    cases hwe : w.example_write_fails <;>
      simp [create_env_example_body, hwe] at hr
    rw [← hr]

/-- Witness for C10: a failing write yields `False` from both writers, a
succeeding run yields `True`. -/
theorem Pepper.writers_return_bool_never_raise_witness :
    create_env_file "S" ⟨some "A=1", none, false, true, false⟩
      = (false, ⟨some "A=1", none, false, true, false⟩)
    ∧ create_env_example ⟨none, none, false, false, true⟩
      = (false, ⟨none, none, false, false, true⟩)
    ∧ (create_env_file "S" ⟨none, none, false, false, false⟩).1 = true :=
  ⟨(Pepper.writers_return_bool_never_raise "S" ⟨some "A=1", none, false, true, false⟩).1
      (.ioError "write") rfl,
   (Pepper.writers_return_bool_never_raise "S" ⟨none, none, false, false, true⟩).2.2.1
      (.ioError "write") rfl,
   ((Pepper.writers_return_bool_never_raise "S" ⟨none, none, false, false, false⟩).2.1
      (true, ⟨some "APP_PEPPER=S\n", none, false, false, false⟩) rfl).2⟩

/-- Witness for C5 at a concrete digest function, password, stored record and
malformed string. -/
theorem Auth.verify_password_mismatch_vs_malformed_witness :
    verify_password H0 "pep" "pw" (.valid ⟨ph, "s", "d:zzz"⟩)
      = .ok (decide (H0 ph "s" ("pw" ++ "pep") = "d:zzz"))
    ∧ verify_password H0 "pep" "pw" (.malformed "garbage") = .error .invalidHash
    ∧ verify_password H0 "pep" "pw" (.malformed "garbage") ≠ .ok false :=
  Auth.verify_password_mismatch_vs_malformed H0 "pep" "pw" ⟨ph, "s", "d:zzz"⟩ "garbage"
